import Mathlib

/-!
Shallow embedding of the AllSkyHyde capture scheduler, twilight calculator,
exposure search engine and image catalog (`flask_app.py`, `image_capture.py`),
together with proofs settling the specification claims about them.
-/

namespace AllSkyHyde

/-! ### Calendar model (Python `datetime.date` / `datetime.datetime`) -/

/-- Gregorian leap-year rule, as implemented by Python's `datetime`. -/
def isLeapYear (y : Nat) : Bool :=
  y % 4 == 0 && (y % 100 != 0 || y % 400 == 0)

/-- Number of days in a month of a given year (Python `calendar` rules). -/
def daysInMonth (y m : Nat) : Nat :=
  if m == 2 then (if isLeapYear y then 29 else 28)
  else if m == 4 || m == 6 || m == 9 || m == 11 then 30
  else 31

/-- A calendar date, as produced by Python's `datetime.date`. -/
structure Date where
  year : Nat
  month : Nat
  day : Nat
  deriving DecidableEq, Repr

/-- A timestamp, as produced by `datetime.strptime(..., "%Y%m%d_%H%M%S")`. -/
structure DateTime where
  year : Nat
  month : Nat
  day : Nat
  hour : Nat
  minute : Nat
  second : Nat
  deriving DecidableEq, Repr

/-- The calendar date of a timestamp (Python `datetime.date()`). -/
def DateTime.date (dt : DateTime) : Date :=
  ⟨dt.year, dt.month, dt.day⟩

/-- `d + timedelta(days=1)` on a valid calendar date. -/
def nextDay (d : Date) : Date :=
  if d.day < daysInMonth d.year d.month then ⟨d.year, d.month, d.day + 1⟩
  else if d.month < 12 then ⟨d.year, d.month + 1, 1⟩
  else ⟨d.year + 1, 1, 1⟩

/-- `d - timedelta(days=1)` on a valid calendar date. -/
def prevDay (d : Date) : Date :=
  if 1 < d.day then ⟨d.year, d.month, d.day - 1⟩
  else if 1 < d.month then ⟨d.year, d.month - 1, daysInMonth d.year (d.month - 1)⟩
  else ⟨d.year - 1, 12, 31⟩

/-- Zero-pad a natural number to at least two digits (`strftime` `%m`, `%d`, ...). -/
def pad2 (n : Nat) : String :=
  if n < 10 then "0" ++ toString n else toString n

/-- Zero-pad a natural number to at least four digits (`strftime` `%Y`). -/
def pad4 (n : Nat) : String :=
  if n < 10 then "000" ++ toString n
  else if n < 100 then "00" ++ toString n
  else if n < 1000 then "0" ++ toString n
  else toString n

/-- `date.strftime("%Y-%m-%d")`. -/
def formatDate (d : Date) : String :=
  pad4 d.year ++ "-" ++ pad2 d.month ++ "-" ++ pad2 d.day

/-- `datetime.strftime("%Y-%m-%d %H:%M:%S")`. -/
def formatDateTime (dt : DateTime) : String :=
  formatDate dt.date ++ " " ++ pad2 dt.hour ++ ":" ++ pad2 dt.minute ++ ":" ++ pad2 dt.second

/-! ### Filename metadata extraction (`extract_metadata_from_filename`) -/

/-- ASCII decimal digit test (the filenames handled by the app are ASCII,
so this coincides with the regex class `\d` there). -/
def isDigitChar (c : Char) : Bool :=
  '0' ≤ c && c ≤ '9'

/-- Try to match the regex `\d{8}_\d{6}` at the start of `cs`;
return the fifteen matched characters on success. -/
def timestampTokenAt (cs : List Char) : Option (List Char) :=
  let p8 := cs.take 8
  if p8.length == 8 && p8.all isDigitChar then
    match cs.drop 8 with
    | '_' :: rest =>
      let p6 := rest.take 6
      if p6.length == 6 && p6.all isDigitChar then
        some (p8 ++ '_' :: p6)
      else none
    | _ => none
  else none

/-- `re.search(r'(\d{8}_\d{6})', filename)`: leftmost match of the
timestamp token, scanning start positions left to right. -/
def findTimestampToken : List Char → Option (List Char)
  | [] => none
  | c :: cs =>
    match timestampTokenAt (c :: cs) with
    | some t => some t
    | none => findTimestampToken cs

/-- Decimal value of a digit list (the digits are already validated). -/
def digitsToNat (cs : List Char) : Nat :=
  cs.foldl (fun acc c => acc * 10 + (c.toNat - '0'.toNat)) 0

/-- `datetime.strptime(token, "%Y%m%d_%H%M%S")`: split the fifteen-character
token into fields and validate them exactly as Python's `datetime` does
(`ValueError` on an invalid field is modelled as `none`). -/
def parseTimestampToken (t : List Char) : Option DateTime :=
  let y := digitsToNat (t.take 4)
  let m := digitsToNat ((t.drop 4).take 2)
  let d := digitsToNat ((t.drop 6).take 2)
  let hh := digitsToNat ((t.drop 9).take 2)
  let mm := digitsToNat ((t.drop 11).take 2)
  let ss := digitsToNat ((t.drop 13).take 2)
  if 1 ≤ y && 1 ≤ m && m ≤ 12 && 1 ≤ d && d ≤ daysInMonth y m &&
      hh ≤ 23 && mm ≤ 59 && ss ≤ 59 then
    some ⟨y, m, d, hh, mm, ss⟩
  else none

/-- The parsed timestamp of a filename: regex search followed by `strptime`
(both failures collapse to `None` in the source). -/
def filenameDatetime (filename : String) : Option DateTime :=
  match findTimestampToken filename.toList with
  | none => none
  | some t => parseTimestampToken t

/-- Try to read a maximal non-empty digit run at the start of `cs`,
returning its value and the remainder. -/
def digitRun (cs : List Char) : Option (Nat × List Char) :=
  let run := cs.takeWhile isDigitChar
  if run.isEmpty then none else some (digitsToNat run, cs.drop run.length)

/-- `re.search(r'exp(\d+)ms', filename)`: leftmost occurrence of `exp`,
followed by one or more digits, followed by `ms`.  Because a shortened
digit run is still followed by a digit (never `m`), the regex engine's
backtracking can never succeed where the maximal run fails, so matching
the maximal run is exact. -/
def findExposureToken : List Char → Option Nat
  | [] => none
  | c :: cs =>
    match c :: cs with
    | 'e' :: 'x' :: 'p' :: rest =>
      (match digitRun rest with
       | some (n, 'm' :: 's' :: _) => some n
       | _ => findExposureToken cs)
    | _ => findExposureToken cs

/-- The metadata record built by `extract_metadata_from_filename`. -/
structure Metadata where
  timestamp : Option String
  exposureMs : Option Nat
  datetimeObj : Option DateTime
  deriving DecidableEq, Repr

/-- `extract_metadata_from_filename(filename)`. -/
def extract_metadata_from_filename (filename : String) : Metadata :=
  let dt := filenameDatetime filename
  { timestamp := dt.map formatDateTime
    exposureMs := findExposureToken filename.toList
    datetimeObj := dt }

/-! ### Night-session bucketing (`get_night_session_for_image`) -/

/-- The triple returned by `get_night_session_for_image`. -/
structure NightSession where
  nightStart : Option Date
  nightEnd : Option Date
  label : String
  deriving DecidableEq, Repr

/-- `get_night_session_for_image(image_datetime)`: images before noon belong
to the session ending that date, images at or after noon to the session
starting that date; a missing timestamp yields the `"Unknown Date"` bucket. -/
def get_night_session_for_image (imageDatetime : Option DateTime) : NightSession :=
  match imageDatetime with
  | none => ⟨none, none, "Unknown Date"⟩
  | some dt =>
    if dt.hour < 12 then
      let ns := prevDay dt.date
      let ne := dt.date
      ⟨some ns, some ne, "Night of " ++ formatDate ns ++ " to " ++ formatDate ne⟩
    else
      let ns := dt.date
      let ne := nextDay dt.date
      ⟨some ns, some ne, "Night of " ++ formatDate ns ++ " to " ++ formatDate ne⟩

/-! ### Image catalog (`get_all_images`) -/

/-- A filesystem entry matching the glob `*_exp*ms.png`: its basename and
its modification time (`st_mtime`, modelled as an integer). -/
structure FileEntry where
  filename : String
  modified : Int
  deriving DecidableEq, Repr

/-- The record built by `get_all_images` for one file (the file-size field
plays no part in any claim and is omitted). -/
structure ImageRecord where
  filename : String
  timestamp : Option String
  exposureMs : Option Nat
  modified : Int
  nightSessionStart : Option Date
  nightSessionEnd : Option Date
  nightSessionLabel : String
  deriving DecidableEq, Repr

/-- Build the catalog record for one file. -/
def mkImageRecord (f : FileEntry) : ImageRecord :=
  let md := extract_metadata_from_filename f.filename
  let ns := get_night_session_for_image md.datetimeObj
  { filename := f.filename
    timestamp := md.timestamp
    exposureMs := md.exposureMs
    modified := f.modified
    nightSessionStart := ns.nightStart
    nightSessionEnd := ns.nightEnd
    nightSessionLabel := ns.label }

/-- Insert a record into a list already sorted newest-first, placing it after
records with an equal or newer modification time (so the sort is stable,
like Python's `list.sort(..., reverse=True)`). -/
def insertByModifiedDesc (x : ImageRecord) : List ImageRecord → List ImageRecord
  | [] => [x]
  | y :: ys =>
    if y.modified < x.modified then x :: y :: ys
    else y :: insertByModifiedDesc x ys

/-- Stable sort, newest modification time first
(`images.sort(key=lambda x: x["modified"], reverse=True)`). -/
def sortByModifiedDesc (l : List ImageRecord) : List ImageRecord :=
  l.foldl (fun acc x => insertByModifiedDesc x acc) []

/-- `get_all_images()`: build a record per matching file and sort the
records newest-first by modification time. -/
def get_all_images (files : List FileEntry) : List ImageRecord :=
  sortByModifiedDesc (files.map mkImageRecord)

/-! ### Bulk deletion (`api_delete_images`) -/

/-- The calendar-day bucket used by the deletion endpoint:
`image['timestamp'].split(' ')[0]` when the timestamp string is truthy,
`'Unknown Date'` otherwise (a `None` timestamp and — vacuously — an empty
string are both falsy in Python).  `split(' ')[0]` is the prefix up to the
first space. -/
def imageDay (img : ImageRecord) : String :=
  match img.timestamp with
  | none => "Unknown Date"
  | some ts =>
    if ts = "" then "Unknown Date"
    else String.mk (ts.toList.takeWhile fun c => c ≠ ' ')

/-- The JSON payload returned by `api_delete_images` (plus the list of
deleted filenames, which the endpoint effects on the filesystem). -/
structure DeleteResult where
  status : String
  message : String
  deletedCount : Nat
  deletedDays : List String
  latestImagePreserved : Option String
  deletedFilenames : List String
  deriving DecidableEq, Repr

/-- Append `d` unless already present (`if image_day not in deleted_days`). -/
def addDayOnce (days : List String) (d : String) : List String :=
  if d ∈ days then days else days ++ [d]

/-- `api_delete_images`, given the requested `days` list and the directory
contents.  Every catalogued file exists on disk when the loop reaches it
(the scan just produced it), so each selected file is removed and counted
and `failed_deletions` stays empty. -/
def api_delete_images (files : List FileEntry) (daysToDelete : List String) :
    DeleteResult :=
  if daysToDelete = [] then
    ⟨"error", "No days specified for deletion", 0, [], none, []⟩
  else
    match get_all_images files with
    | [] => ⟨"error", "No images found", 0, [], none, []⟩
    | latest :: rest =>
      let allImages := latest :: rest
      let imagesToDelete :=
        allImages.filter fun img =>
          img.filename ≠ latest.filename && imageDay img ∈ daysToDelete
      let deletedDays :=
        (allImages.filter fun img => img.filename ≠ latest.filename).foldl
          (fun acc img =>
            if imageDay img ∈ daysToDelete then addDayOnce acc (imageDay img)
            else acc) []
      let deletedNames := imagesToDelete.map (·.filename)
      ⟨"success",
        "Successfully deleted " ++ toString deletedNames.length ++ " images from " ++
          toString deletedDays.length ++ " day(s)",
        deletedNames.length, deletedDays, some latest.filename, deletedNames⟩

/-- Membership test for the catalog glob `*_exp*ms.png`: the name ends in
`ms.png` and the part before that suffix contains `_exp`. -/
def matchesCatalogGlob (filename : String) : Prop :=
  ∃ a b : String, filename = a ++ "_exp" ++ b ++ "ms.png"

/-! ### Twilight calculator (`get_current_twilight_period`)

The solar geometry of `calculate_sunrise_sunset` is
`cos_hour_angle = -tan(lat)·tan(declination)` followed by
`hour_angle = degrees(acos(cos_hour_angle))`.  The claims fix the site at
latitude 0, where `tan 0 = 0` makes the cosine exactly `0` and the hour
angle exactly `90°` for every declination (theorem
`hour_angle_at_equator` below), so the rest of the computation is exact
rational arithmetic; the embedding therefore takes the cosine and the hour
angle as inputs and instantiates them with `0` and `90` at the equator. -/

/-- The period strings returned by `get_current_twilight_period`. -/
inductive TwilightPeriod where
  | daytime
  | civil_twilight
  | nautical_twilight
  | astronomical_darkness
  | unknown
  deriving DecidableEq, Repr

/-- Python float `% 24` (sign-of-divisor remainder): `x - 24·⌊x/24⌋`. -/
def qmod24 (x : ℚ) : ℚ := x - 24 * ⌊x / 24⌋

/-- The three shapes `calculate_sunrise_sunset` can return: `(None, None)`
for polar night, the strings `("00:00", "23:59")` for midnight sun, and a
pair of fractional hours otherwise. -/
inductive SunTimes where
  | noTimes
  | midnightSunStrings
  | hours (sunriseHour sunsetHour : ℚ)
  deriving DecidableEq, Repr

/-- `calculate_sunrise_sunset(lat, lon, date)` given the already-computed
solar geometry: `cosH` is `cos_hour_angle` and `hourAngleDeg` is
`degrees(acos(cos_hour_angle))` (valid only when `|cosH| ≤ 1`, exactly as
in the source, where `acos` is only reached in that branch). -/
def calculate_sunrise_sunset (cosH hourAngleDeg lon tz : ℚ) (dst : Bool) : SunTimes :=
  if 1 < cosH then .noTimes
  else if cosH < -1 then .midnightSunStrings
  else
    let solarNoon : ℚ := 12 - lon / 15
    let tzOffset : ℚ := tz + (if dst then 1 else 0)
    .hours (solarNoon - hourAngleDeg / 15 + tzOffset)
           (solarNoon + hourAngleDeg / 15 + tzOffset)

/-- The period-resolution half of `get_current_twilight_period`
(lines after `calculate_sunrise_sunset` returns): `noTimes` hits the
explicit `unknown` return; `midnightSunStrings` makes the arithmetic on
the string values raise `TypeError`, which the surrounding
`except` turns into `unknown` as well. -/
def resolve_twilight_period (st : SunTimes) (currentHour : ℚ) : TwilightPeriod :=
  match st with
  | .noTimes => .unknown
  | .midnightSunStrings => .unknown
  | .hours sunriseHour sunsetHour =>
    let astronomicalTwilightEnd := qmod24 (sunsetHour + 3/2)
    let astronomicalTwilightBegin := qmod24 (sunriseHour - 3/2)
    -- the wrap-around branch on the astronomical-darkness band, verbatim
    let inAstronomicalDarkness :=
      if astronomicalTwilightEnd < astronomicalTwilightBegin then
        astronomicalTwilightEnd ≤ currentHour ∨ currentHour < astronomicalTwilightBegin
      else
        astronomicalTwilightEnd ≤ currentHour ∧ currentHour < astronomicalTwilightBegin
    if inAstronomicalDarkness then .astronomical_darkness
    else if (sunsetHour ≤ currentHour ∧ currentHour < astronomicalTwilightEnd) ∨
        (astronomicalTwilightBegin ≤ currentHour ∧ currentHour < sunriseHour) then
      .nautical_twilight
    else if (sunsetHour - 1/2 ≤ currentHour ∧ currentHour < sunsetHour) ∨
        (sunriseHour ≤ currentHour ∧ currentHour < sunriseHour + 1/2) then
      .civil_twilight
    else .daytime

/-- `get_current_twilight_period()` at site latitude 0: the solar geometry
degenerates to `cos_hour_angle = 0`, `hour_angle = 90°`
(theorem `hour_angle_at_equator`), and `current_hour = now.hour + now.minute/60`. -/
def get_current_twilight_period_equator (lon tz : ℚ) (dst : Bool) (currentHour : ℚ) :
    TwilightPeriod :=
  resolve_twilight_period (calculate_sunrise_sunset 0 90 lon tz dst) currentHour

/-! ### Exposure search engine (`find_optimal_exposure` in `image_capture.py`)

The acquisition capability is injected as `acquire : ℚ → Option ℚ`:
`acquire e = some adu` models a trial at exposure `e` whose central-region
mean brightness is `adu`, and `acquire e = none` models any of the three
failure modes of `test_exposure` (configuration error, capture failure
after the 3 internal retries, brightness-calculation error), all of which
make `test_exposure` return `None` and record a failed capture. -/

/-- The `best_*` accumulator of `find_optimal_exposure`
(`best_ratio_diff = float('inf')` is modelled by `none`). -/
structure BestSoFar where
  bestExposure : Option ℚ
  bestMeanAdu : Option ℚ
  bestRatioDiff : Option ℚ
  deriving DecidableEq, Repr

/-- Initial accumulator: nothing seen yet. -/
def BestSoFar.init : BestSoFar := ⟨none, none, none⟩

/-- `ratio_diff < best_ratio_diff`, where an absent best is infinite. -/
def BestSoFar.improves (b : BestSoFar) (ratioDiff : ℚ) : Bool :=
  match b.bestRatioDiff with
  | none => true
  | some r => ratioDiff < r

/-- `test_exposure(exposure_time_ms)`: run one trial, update the best-seen
accumulator on strict improvement, and return the measured brightness
(`None` on failure). -/
def test_exposure (acquire : ℚ → Option ℚ) (targetAdu : ℚ) (b : BestSoFar)
    (exposureMs : ℚ) : BestSoFar × Option ℚ :=
  match acquire exposureMs with
  | none => (b, none)
  | some meanAdu =>
    let ratioDiff := |meanAdu / targetAdu - 1|
    if b.improves ratioDiff then
      (⟨some exposureMs, some meanAdu, some ratioDiff⟩, some meanAdu)
    else (b, some meanAdu)

/-- The fixed coarse ladder of phase 1. -/
def coarseLadder : List ℚ :=
  [1, 10, 20, 50, 100, 200, 500, 1000, 2000, 5000, 10000, 20000, 30000]

/-- `[e for e in coarse_steps if MIN_EXPOSURE_MS <= e <= MAX_EXPOSURE_MS]`. -/
def coarseSteps (minExposureMs maxExposureMs : ℚ) : List ℚ :=
  coarseLadder.filter fun e => minExposureMs ≤ e ∧ e ≤ maxExposureMs

/-- Result of the phase-1 walk: either an exposure within tolerance was
returned early, or the walk ended with the accumulator and the bounds. -/
inductive Phase1Result where
  | found (exposureMs : ℚ)
  | ended (b : BestSoFar) (lowerBound upperBound : Option ℚ)
  deriving DecidableEq, Repr

/-- Phase 1 of `find_optimal_exposure`: walk the coarse ladder, return
immediately on a trial within tolerance, track the latest too-dark
exposure as `lower_bound` and the latest too-bright one as `upper_bound`,
and break as soon as a too-bright trial arrives with a lower bound known. -/
def phase1 (acquire : ℚ → Option ℚ) (targetAdu tolerance : ℚ) :
    List ℚ → BestSoFar → Option ℚ → Option ℚ → Phase1Result
  | [], b, lo, hi => .ended b lo hi
  | e :: rest, b, lo, hi =>
    match test_exposure acquire targetAdu b e with
    | (b', none) => phase1 acquire targetAdu tolerance rest b' lo hi
    | (b', some meanAdu) =>
      if |meanAdu / targetAdu - 1| < tolerance then .found e
      else if meanAdu < targetAdu then
        phase1 acquire targetAdu tolerance rest b' (some e) hi
      else if lo ≠ none then .ended b' lo (some e)
      else phase1 acquire targetAdu tolerance rest b' lo (some e)

/-- Python `int(q)` on a rational: truncation toward zero. -/
def qtrunc (q : ℚ) : Int := q.num / (q.den : Int)

/-- Python `range(a, b, s)` for a positive step `s`. -/
def pythonRange (a b s : Int) : List Int :=
  (List.range (((b - a + s - 1) / s).toNat)).map fun i => a + s * i

/-- The refinement candidates of phase 2, generated from the bounds gap. -/
def refineSteps (lowerBound upperBound : ℚ) : List ℚ :=
  let diff := upperBound - lowerBound
  if 100 < diff then
    let stepSize := min 10 ⌊diff / 10⌋
    (pythonRange (qtrunc lowerBound) (qtrunc upperBound) stepSize).map (Int.cast ·)
  else if 10 < diff then
    (pythonRange (qtrunc lowerBound) (qtrunc upperBound) 1).map (Int.cast ·)
  else
    (List.range (qtrunc (diff * 2)).toNat).drop 1 |>.map
      fun i => lowerBound + (i : ℚ) * (1/2)

/-- Phase 2 of `find_optimal_exposure`: test each refinement candidate
strictly between the bounds; the first within tolerance is returned. -/
def phase2 (acquire : ℚ → Option ℚ) (targetAdu tolerance lowerBound upperBound : ℚ) :
    List ℚ → BestSoFar → BestSoFar × Option ℚ
  | [], b => (b, none)
  | e :: rest, b =>
    if e ≤ lowerBound ∨ upperBound ≤ e then
      phase2 acquire targetAdu tolerance lowerBound upperBound rest b
    else
      match test_exposure acquire targetAdu b e with
      | (b', none) => phase2 acquire targetAdu tolerance lowerBound upperBound rest b'
      | (b', some meanAdu) =>
        if |meanAdu / targetAdu - 1| < tolerance then (b', some e)
        else phase2 acquire targetAdu tolerance lowerBound upperBound rest b'

/-- `find_optimal_exposure`: coarse bound-finding, refinement, then the
best-seen exposure, and `FALLBACK_EXPOSURE_MS` if every trial failed. -/
def find_optimal_exposure (acquire : ℚ → Option ℚ)
    (minExposureMs maxExposureMs fallbackExposureMs targetAdu : ℚ) : ℚ :=
  let tolerance : ℚ := 15/100
  match phase1 acquire targetAdu tolerance (coarseSteps minExposureMs maxExposureMs)
      .init none none with
  | .found e => e
  | .ended b lo hi =>
    let (b2, refined) :=
      match lo, hi with
      | some l, some u => phase2 acquire targetAdu tolerance l u (refineSteps l u) b
      | _, _ => (b, none)
    match refined with
    | some e => e
    | none =>
      match b2.bestExposure with
      | some e => e
      | none => fallbackExposureMs

/-! ### Capture scheduler (`run_single_capture`, `background_capture_loop`)

Log lines are modelled by their message text; the `[HH:MM:SS]` prefix the
source prepends from the wall clock carries no information any claim
depends on.  One call of the capture subprocess is modelled by a
`CaptureRun` value: either the process runs to completion with a list of
stdout lines and an exit code, or an exception is raised somewhere inside
the `try` block of `run_single_capture`. -/

/-- What one invocation of the capture subprocess does. -/
inductive CaptureRun where
  | completes (outputLines : List String) (exitCode : Int)
  | raises (message : String)
  deriving DecidableEq, Repr

/-- Append one subprocess output line to the log, then
`if len(capture_log) > 100: capture_log.pop(0)` — the only trimming
operation in the source. -/
def appendOutputLine (log : List String) (line : String) : List String :=
  let log := log ++ [line]
  if 100 < log.length then log.drop 1 else log

/-- Python `str.strip()`: drop whitespace from both ends. -/
def stripString (s : String) : String :=
  String.mk (((s.toList.dropWhile Char.isWhitespace).reverse.dropWhile
    Char.isWhitespace).reverse)

/-- `run_single_capture()`: log the start line, stream the subprocess
output into the log (skipping lines that strip to empty, trimming to 100
after each), log the completion line, and report success iff the exit code
is 0.  An exception anywhere inside is caught, logged as an `Error:` line,
and turns into a `False` return — it never escapes. -/
def run_single_capture (run : CaptureRun) (log : List String) :
    Bool × List String :=
  let log := log ++ ["Starting capture..."]
  match run with
  | .raises msg => (false, log ++ ["Error: " ++ msg])
  | .completes outputLines exitCode =>
    let log := outputLines.foldl
      (fun acc line =>
        if stripString line = "" then acc else appendOutputLine acc (stripString line)) log
    let log := log ++ ["Capture completed (exit code: " ++ toString exitCode ++ ")"]
    (exitCode == 0, log)

/-- The shared scheduler state touched by the worker loop.
`backgroundCaptureEnabled` is the persisted run-intent flag. -/
structure SchedulerState where
  stopCaptureFlag : Bool
  isCapturing : Bool
  backgroundCaptureEnabled : Bool
  captureLog : List String
  deriving DecidableEq, Repr

/-- The environment one worker tick observes: the gating decision of
`should_capture_be_active()` with its reason string, and the behaviour of
the capture subprocess if one is launched. -/
structure TickEnv where
  shouldCapture : Bool
  reason : String
  captureRun : CaptureRun
  deriving DecidableEq, Repr

/-- The body of one iteration of the `while not stop_capture_flag` loop
(the interval sleep, which only reads the stop flag, is abstracted away). -/
def background_tick (st : SchedulerState) (env : TickEnv) : SchedulerState :=
  if env.shouldCapture then
    let st := { st with isCapturing := true }
    let (success, log) := run_single_capture env.captureRun st.captureLog
    let st := { st with isCapturing := false, captureLog := log }
    if success then
      { st with captureLog :=
          st.captureLog ++ ["Waiting until next capture..."] }
    else
      { st with captureLog :=
          st.captureLog ++ ["Capture failed, will retry..."] }
  else
    { st with
      isCapturing := false
      captureLog := st.captureLog ++ [env.reason] }

/-- One turn of `background_capture_loop`: either the loop condition
observes the stop flag and the worker exits, or the tick body runs and the
loop continues.  Because `run_single_capture` catches its own exceptions,
an acquisition-cycle exception still yields `continueLoop`. -/
inductive LoopStep where
  | exitLoop (st : SchedulerState)
  | continueLoop (st : SchedulerState)
  deriving DecidableEq, Repr

/-- One iteration of `background_capture_loop` from state `st` under
environment `env`. -/
def background_loop_step (st : SchedulerState) (env : TickEnv) : LoopStep :=
  if st.stopCaptureFlag then
    .exitLoop { st with captureLog := st.captureLog ++ ["Background capture stopped"] }
  else
    .continueLoop (background_tick st env)

/-! ### `api_set_interval` -/

/-- The settings state the interval endpoint can touch. -/
structure IntervalState where
  captureInterval : Int
  backgroundCaptureEnabled : Bool
  deriving DecidableEq, Repr

/-- A JSON `{status, message}` response. -/
structure ApiResponse where
  status : String
  message : String
  deriving DecidableEq, Repr

/-- `api_set_interval`: the request's `interval` field after
`int(request.form.get('interval', 300))` — `none` models a `ValueError`
from a non-numeric string, `some n` the parsed integer (an absent field
parses as the default 300).  Returns the response, the new state, and
whether `save_config()` ran. -/
def api_set_interval (st : IntervalState) (parsedInterval : Option Int) :
    ApiResponse × IntervalState × Bool :=
  match parsedInterval with
  | none => (⟨"error", "Invalid interval value"⟩, st, false)
  | some n =>
    if n < 30 then
      (⟨"error", "Interval must be at least 30 seconds"⟩, st, false)
    else
      -- the restart of the worker when background capture is enabled leaves
      -- both modelled fields at their final values shown here
      (⟨"success", "Capture interval updated"⟩,
        { st with captureInterval := n }, true)

/-! ## Theorems settling the claims -/

/-- Justification for instantiating the solar geometry at latitude 0: the
source's `cos_hour_angle = -tan(lat_rad)·tan(dec_rad)` is exactly `0`
there for every declination, and `hour_angle = degrees(acos(...))` is
exactly `90`. -/
theorem hour_angle_at_equator (decRad : ℝ) :
    -Real.tan 0 * Real.tan decRad = 0 ∧
    Real.arccos (-Real.tan 0 * Real.tan decRad) * (180 / Real.pi) = 90 := by
  have h0 : -Real.tan 0 * Real.tan decRad = 0 := by
    rw [Real.tan_zero, neg_zero, zero_mul]
  refine ⟨h0, ?_⟩
  rw [h0, Real.arccos_zero]
  field_simp
  ring

/-- Claim C1: at site latitude 0 and longitude 0 the computed sunset and
sunrise hours are 18:00 and 06:00, and the claim expects every time of day
more than 1.5 h after sunset and more than 1.5 h before sunrise to resolve
to astronomical darkness; the code instead returns `daytime` throughout
that band (here at 22:00, deep in the evening darkness band, and at 03:00,
deep in the morning one), because the midnight-wrap test on the darkness
band is inverted. -/
theorem c1_darkness_band_resolves_to_daytime :
    calculate_sunrise_sunset 0 90 0 0 false = .hours 6 18 ∧
    get_current_twilight_period_equator 0 0 false 22 = .daytime ∧
    get_current_twilight_period_equator 0 0 false 3 = .daytime ∧
    get_current_twilight_period_equator 0 0 false (79/4) = .daytime := by
  have hs : calculate_sunrise_sunset 0 90 0 0 false = .hours 6 18 := by
    unfold calculate_sunrise_sunset
    norm_num
  refine ⟨hs, ?_, ?_, ?_⟩ <;>
    · unfold get_current_twilight_period_equator
      rw [hs]
      unfold resolve_twilight_period qmod24
      norm_num

/-- Strengthening of the C1 divergence: at latitude 0, longitude 0,
timezone 0 the code returns one of `daytime`, `nautical_twilight`,
`civil_twilight` for every time of day whatsoever — the
`astronomical_darkness` branch is unreachable, because the darkness band
`[19.5, 4.5)` wraps midnight while the code takes its non-wrapping test. -/
theorem equator_darkness_unreachable (h : ℚ) :
    get_current_twilight_period_equator 0 0 false h = .daytime ∨
    get_current_twilight_period_equator 0 0 false h = .nautical_twilight ∨
    get_current_twilight_period_equator 0 0 false h = .civil_twilight := by
  unfold get_current_twilight_period_equator calculate_sunrise_sunset
    resolve_twilight_period qmod24
  norm_num
  split_ifs with h1 h2 h3 <;> simp_all
  linarith

/-- Claim C3: at site latitude 0 and longitude 0, a `now` exactly at the
computed sunset hour (18:00) is claimed to resolve to `CivilTwilight`; the
code instead returns `nautical_twilight`, because its nautical test fires
on the whole band `[sunset, sunset+1.5)` while its civil test only covers
`[sunset-0.5, sunset)`, contradicting the unused
`civil_twilight_end = sunset + 0.5` the code itself computes. -/
theorem c3_at_sunset_resolves_to_nautical :
    calculate_sunrise_sunset 0 90 0 0 false = .hours 6 18 ∧
    get_current_twilight_period_equator 0 0 false 18 = .nautical_twilight := by
  have hs : calculate_sunrise_sunset 0 90 0 0 false = .hours 6 18 := by
    unfold calculate_sunrise_sunset
    norm_num
  refine ⟨hs, ?_⟩
  unfold get_current_twilight_period_equator
  rw [hs]
  unfold resolve_twilight_period qmod24
  norm_num

/-- Claim C2: an exception raised during one acquisition cycle of the
background worker is caught and logged as an `Error:` line, the loop step
still yields `continueLoop` with the stop flag clear (so a later tick can
capture again), and the persisted run-intent flag
`background_capture_enabled` stays true. -/
theorem c2_worker_survives_acquisition_exception
    (st : SchedulerState) (env : TickEnv) (msg : String)
    (hstop : st.stopCaptureFlag = false)
    (hintent : st.backgroundCaptureEnabled = true)
    (hgate : env.shouldCapture = true)
    (hexc : env.captureRun = .raises msg) :
    ∃ st', background_loop_step st env = .continueLoop st' ∧
      st'.backgroundCaptureEnabled = true ∧
      st'.stopCaptureFlag = false ∧
      st'.isCapturing = false ∧
      ("Error: " ++ msg) ∈ st'.captureLog := by
  refine ⟨background_tick st env, ?_, ?_, ?_, ?_, ?_⟩ <;>
    simp [background_loop_step, background_tick, run_single_capture,
      hstop, hintent, hgate, hexc]

/-- Witness for C2 at a concrete state and environment. -/
theorem c2_witness :
    ∃ st', background_loop_step ⟨false, false, true, []⟩
        ⟨true, "gate open", .raises "camera unplugged"⟩ = .continueLoop st' ∧
      st'.backgroundCaptureEnabled = true ∧
      st'.stopCaptureFlag = false ∧
      st'.isCapturing = false ∧
      ("Error: " ++ "camera unplugged") ∈ st'.captureLog :=
  c2_worker_survives_acquisition_exception
    ⟨false, false, true, []⟩ ⟨true, "gate open", .raises "camera unplugged"⟩
    "camera unplugged" rfl rfl rfl rfl

/-- Helper: on a non-empty catalog and a non-empty request, the deleted
filenames are exactly the non-newest records whose calendar-day bucket is
requested, in catalog order. -/
theorem api_delete_images_deletedFilenames (files : List FileEntry)
    (days : List String) (latest : ImageRecord) (rest : List ImageRecord)
    (h : get_all_images files = latest :: rest) (hd : days ≠ []) :
    (api_delete_images files days).deletedFilenames =
      ((latest :: rest).filter fun img =>
        img.filename ≠ latest.filename && imageDay img ∈ days).map (·.filename) := by
  unfold api_delete_images
  rw [if_neg hd, h]

/-- Helper: a record of the catalog other than the newest one whose
calendar-day bucket is requested has its filename deleted. -/
theorem mem_deletedFilenames_of (files : List FileEntry) (days : List String)
    (latest : ImageRecord) (r : ImageRecord)
    (hhead : (get_all_images files).head? = some latest)
    (hr : r ∈ get_all_images files)
    (hne : r.filename ≠ latest.filename)
    (hday : imageDay r ∈ days) :
    r.filename ∈ (api_delete_images files days).deletedFilenames := by
  have hd : days ≠ [] := by
    intro he
    rw [he] at hday
    exact (List.not_mem_nil _) hday
  cases hl : get_all_images files with
  | nil => rw [hl] at hhead; exact absurd hhead (by simp)
  | cons a rest =>
    rw [hl] at hhead
    have ha : a = latest := by simpa using hhead
    subst ha
    rw [api_delete_images_deletedFilenames files days a rest hl hd]
    rw [hl] at hr
    refine List.mem_map.mpr ⟨r, List.mem_filter.mpr ⟨hr, ?_⟩, rfl⟩
    simp [hne, hday]

/-- The two-record catalog of the C4 counterexample: the older record is
an after-midnight capture, so its night-session label names the previous
night while its timestamp's calendar day is the following date. -/
def c4Files : List FileEntry :=
  [⟨"20241115_200000_exp100ms.png", 200⟩, ⟨"20241114_001000_exp200ms.png", 100⟩]

/-- Counterexample to claim C4 as stated: the record
`20241114_001000_exp200ms.png` is not the newest and its night-session
label `Night of 2024-11-13 to 2024-11-14` is the (whole) requested set,
yet the deletion operation removes nothing — the endpoint matches the
request against the timestamp's calendar day (`2024-11-14`), never against
the night-session label. -/
theorem c4_counterexample :
    (mkImageRecord ⟨"20241114_001000_exp200ms.png", 100⟩).nightSessionLabel =
      "Night of 2024-11-13 to 2024-11-14" ∧
    mkImageRecord ⟨"20241114_001000_exp200ms.png", 100⟩ ∈ get_all_images c4Files ∧
    (get_all_images c4Files).head?.map (·.filename) =
      some "20241115_200000_exp100ms.png" ∧
    (api_delete_images c4Files ["Night of 2024-11-13 to 2024-11-14"]).deletedFilenames
      = [] ∧
    (api_delete_images c4Files ["Night of 2024-11-13 to 2024-11-14"]).deletedCount
      = 0 := by
  refine ⟨?_, ?_, ?_, ?_, ?_⟩ <;> decide

/-- Claim C4 (amended): for every catalog state and requested label set,
the bulk deletion deletes exactly those non-newest records whose
calendar-day bucket — the date part of the timestamp string, or
`Unknown Date` when the timestamp is unset — is in the requested set. -/
theorem c4_delete_selects_by_timestamp_day (files : List FileEntry)
    (days : List String) (latest : ImageRecord)
    (hhead : (get_all_images files).head? = some latest) (hd : days ≠ []) :
    ∀ fn : String,
      fn ∈ (api_delete_images files days).deletedFilenames ↔
        ∃ img ∈ get_all_images files,
          img.filename = fn ∧ img.filename ≠ latest.filename ∧ imageDay img ∈ days := by
  intro fn
  cases hl : get_all_images files with
  | nil => rw [hl] at hhead; exact absurd hhead (by simp)
  | cons a rest =>
    rw [hl] at hhead
    have ha : a = latest := by simpa using hhead
    subst ha
    rw [api_delete_images_deletedFilenames files days a rest hl hd]
    constructor
    · intro hmem
      obtain ⟨img, himg, heq⟩ := List.mem_map.mp hmem
      obtain ⟨hin, hpred⟩ := List.mem_filter.mp himg
      simp only [Bool.and_eq_true, decide_eq_true_eq] at hpred
      exact ⟨img, hin, heq, hpred.1, hpred.2⟩
    · rintro ⟨img, hin, heq, hne, hday⟩
      refine List.mem_map.mpr ⟨img, List.mem_filter.mpr ⟨hin, ?_⟩, heq⟩
      simp [hne, hday]

/-- Witness for C4 (amended) at the concrete two-record catalog: requesting
the calendar day `2024-11-14` does delete the older record. -/
theorem c4_witness :
    "20241114_001000_exp200ms.png" ∈
      (api_delete_images c4Files ["2024-11-14"]).deletedFilenames :=
  (c4_delete_selects_by_timestamp_day c4Files ["2024-11-14"]
      (mkImageRecord ⟨"20241115_200000_exp100ms.png", 200⟩)
      (by decide) (by decide) "20241114_001000_exp200ms.png").mpr
    ⟨mkImageRecord ⟨"20241114_001000_exp200ms.png", 100⟩,
      by decide, by decide, by decide, by decide⟩

/-- The five-record catalog of the spec's `DeleteBySessionLabels` example:
five consecutive nightly captures, newest first by modification time; the
2nd-newest record is the only one in its calendar-day bucket. -/
def c5Files : List FileEntry :=
  [⟨"20241116_010000_exp100ms.png", 500⟩, ⟨"20241115_010000_exp100ms.png", 400⟩,
   ⟨"20241114_010000_exp100ms.png", 300⟩, ⟨"20241113_010000_exp100ms.png", 200⟩,
   ⟨"20241112_010000_exp100ms.png", 100⟩]

/-- Claim C5: the bulk deletion never deletes the single newest record
(newest by modification-time ordering) of a non-empty catalog, whatever
the requested set; and on the 5-record example, deleting the bucket of the
2nd-newest record removes exactly 1 file, even when the newest record's
own bucket is also requested. -/
theorem c5_newest_never_deleted :
    (∀ (files : List FileEntry) (days : List String) (latest : ImageRecord),
      (get_all_images files).head? = some latest →
      latest.filename ∉ (api_delete_images files days).deletedFilenames) ∧
    (api_delete_images c5Files ["2024-11-15"]).deletedCount = 1 ∧
    (api_delete_images c5Files ["2024-11-15"]).deletedFilenames =
      ["20241115_010000_exp100ms.png"] ∧
    (api_delete_images c5Files ["2024-11-15"]).latestImagePreserved =
      some "20241116_010000_exp100ms.png" ∧
    (api_delete_images c5Files ["2024-11-15", "2024-11-16"]).deletedFilenames =
      ["20241115_010000_exp100ms.png"] := by
  refine ⟨?_, by decide, by decide, by decide, by decide⟩
  intro files days latest hhead hmem
  by_cases hd : days = []
  · rw [hd] at hmem
    simp [api_delete_images] at hmem
  cases hl : get_all_images files with
  | nil => rw [hl] at hhead; exact absurd hhead (by simp)
  | cons a rest =>
    rw [hl] at hhead
    have ha : a = latest := by simpa using hhead
    subst ha
    rw [api_delete_images_deletedFilenames files days a rest hl hd] at hmem
    obtain ⟨img, himg, heq⟩ := List.mem_map.mp hmem
    obtain ⟨-, hpred⟩ := List.mem_filter.mp himg
    simp only [Bool.and_eq_true, decide_eq_true_eq] at hpred
    exact hpred.1 heq

/-- Witness for C5 at the five-record catalog: the newest record's
filename is not among the deleted ones even when its own calendar-day
bucket is requested. -/
theorem c5_witness :
    (mkImageRecord ⟨"20241116_010000_exp100ms.png", 500⟩).filename ∉
      (api_delete_images c5Files ["2024-11-15", "2024-11-16"]).deletedFilenames :=
  c5_newest_never_deleted.1 c5Files ["2024-11-15", "2024-11-16"]
    (mkImageRecord ⟨"20241116_010000_exp100ms.png", 500⟩) (by decide)

/-- Helper: when every acquisition fails, a trial leaves the best-seen
accumulator untouched and measures nothing. -/
theorem test_exposure_all_fail (target : ℚ) (b : BestSoFar) (e : ℚ) :
    test_exposure (fun _ => none) target b e = (b, none) := rfl

/-- Helper: when every acquisition fails, the phase-1 walk ends with its
accumulator and bounds unchanged. -/
theorem phase1_all_fail (target tol : ℚ) (l : List ℚ) (b : BestSoFar)
    (lo hi : Option ℚ) :
    phase1 (fun _ => none) target tol l b lo hi = .ended b lo hi := by
  induction l with
  | nil => rfl
  | cons e rest ih =>
    rw [phase1, test_exposure_all_fail]
    exact ih

/-- Claim C6: if every acquisition attempt during an exposure search fails
(no trial ever yields a brightness measurement), the search returns
`FALLBACK_EXPOSURE_MS` as its chosen exposure. -/
theorem c6_all_failures_returns_fallback
    (acquire : ℚ → Option ℚ) (minE maxE fallbackE target : ℚ)
    (hfail : ∀ e, acquire e = none) :
    find_optimal_exposure acquire minE maxE fallbackE target = fallbackE := by
  have hacq : acquire = fun _ => none := funext hfail
  subst hacq
  unfold find_optimal_exposure
  simp only [phase1_all_fail]
  rfl

/-- Witness for C6 with the shipped defaults: min 1 ms, max 30000 ms,
fallback 30000 ms, 8-bit target brightness 255/4 ADU. -/
theorem c6_witness :
    find_optimal_exposure (fun _ => none) 1 30000 30000 (255/4) = 30000 :=
  c6_all_failures_returns_fallback (fun _ => none) 1 30000 30000 (255/4)
    (fun _ => rfl)

/-- Claim C7: the night-session bucketing assigns a timestamp with hour
before 12:00 the session ending on that calendar date, and a timestamp at
or after 12:00 the session starting on that date; `2024-11-13 23:50:00`
and `2024-11-14 00:10:00` share one session label, while
`2024-11-14 12:05:00` gets a different session — the next one, starting
where the shared session ends. -/
theorem c7_night_session_bucketing :
    (∀ dt : DateTime,
      (dt.hour < 12 →
        (get_night_session_for_image (some dt)).nightEnd = some dt.date ∧
        (get_night_session_for_image (some dt)).nightStart = some (prevDay dt.date)) ∧
      (12 ≤ dt.hour →
        (get_night_session_for_image (some dt)).nightStart = some dt.date ∧
        (get_night_session_for_image (some dt)).nightEnd = some (nextDay dt.date))) ∧
    (get_night_session_for_image (some ⟨2024, 11, 13, 23, 50, 0⟩)).label =
      (get_night_session_for_image (some ⟨2024, 11, 14, 0, 10, 0⟩)).label ∧
    (get_night_session_for_image (some ⟨2024, 11, 14, 12, 5, 0⟩)).label ≠
      (get_night_session_for_image (some ⟨2024, 11, 14, 0, 10, 0⟩)).label ∧
    (get_night_session_for_image (some ⟨2024, 11, 14, 12, 5, 0⟩)).nightStart =
      (get_night_session_for_image (some ⟨2024, 11, 14, 0, 10, 0⟩)).nightEnd := by
  refine ⟨?_, by decide, by decide, by decide⟩
  intro dt
  constructor
  · intro hlt
    simp [get_night_session_for_image, hlt]
  · intro hge
    simp [get_night_session_for_image, Nat.not_lt.mpr hge]

/-- Witness for C7 at the two example timestamps: one before noon, one at
or after noon. -/
theorem c7_witness :
    (get_night_session_for_image (some ⟨2024, 11, 14, 0, 10, 0⟩)).nightEnd =
      some (DateTime.date ⟨2024, 11, 14, 0, 10, 0⟩) ∧
    (get_night_session_for_image (some ⟨2024, 11, 14, 12, 5, 0⟩)).nightStart =
      some (DateTime.date ⟨2024, 11, 14, 12, 5, 0⟩) :=
  ⟨((c7_night_session_bucketing.1 ⟨2024, 11, 14, 0, 10, 0⟩).1 (by decide)).1,
   ((c7_night_session_bucketing.1 ⟨2024, 11, 14, 12, 5, 0⟩).2 (by decide)).1⟩

/-- Counterexample to claim C8 as stated: a gated worker tick appends its
reason line without any eviction, so a log buffer holding exactly 100
lines grows to 101 — the buffer does not stay within 100 lines under
every appending operation. -/
theorem c8_counterexample :
    (SchedulerState.mk false false true (List.replicate 100 "line")).captureLog.length
      = 100 ∧
    (background_tick ⟨false, false, true, List.replicate 100 "line"⟩
      ⟨false, "Current period - capture disabled by settings",
        .completes [] 0⟩).captureLog.length = 101 := by
  constructor
  · simp
  · simp [background_tick]

/-- Claim C8 (amended): only the capture-output logging evicts — appending
one subprocess output line to a buffer of at most 100 lines leaves at most
100 lines, evicting the oldest when the append would exceed 100 — while
the worker-tick append (and the other plain appends) grow the buffer by
one line with no eviction, so the buffer can exceed 100 lines. -/
theorem c8_trim_only_on_capture_output :
    (∀ (log : List String) (line : String),
      log.length ≤ 100 → (appendOutputLine log line).length ≤ 100) ∧
    (∀ (st : SchedulerState) (env : TickEnv),
      env.shouldCapture = false →
      (background_tick st env).captureLog.length = st.captureLog.length + 1) := by
  constructor
  · intro log line hlen
    unfold appendOutputLine
    by_cases h : 100 < (log ++ [line]).length
    · rw [if_pos h]
      simp at h ⊢
      omega
    · rw [if_neg h]
      simp at h
      simpa using h
  · intro st env hgate
    simp [background_tick, hgate]

/-- Witness for C8 (amended): an output-line append at a full buffer stays
at 100 lines; a gated tick at the same buffer grows it to 101. -/
theorem c8_witness :
    (appendOutputLine (List.replicate 100 "line") "output").length ≤ 100 ∧
    (background_tick ⟨false, false, true, List.replicate 100 "line"⟩
      ⟨false, "gated", .completes [] 0⟩).captureLog.length =
      (List.replicate 100 "line").length + 1 :=
  ⟨c8_trim_only_on_capture_output.1 (List.replicate 100 "line") "output" (by simp),
   c8_trim_only_on_capture_output.2 ⟨false, false, true, List.replicate 100 "line"⟩
     ⟨false, "gated", .completes [] 0⟩ rfl⟩

/-- Claim C9: every requested interval value below 30 seconds is rejected
with a validation error, the configured capture interval is left
unchanged, and `save_config()` is not invoked. -/
theorem c9_interval_below_30_rejected (st : IntervalState) (n : Int)
    (h : n < 30) :
    api_set_interval st (some n) =
      (⟨"error", "Interval must be at least 30 seconds"⟩, st, false) := by
  simp only [api_set_interval]
  rw [if_pos h]

/-- Witness for C9 at the spec's example `SetInterval(10)`. -/
theorem c9_witness :
    api_set_interval ⟨300, true⟩ (some 10) =
      (⟨"error", "Interval must be at least 30 seconds"⟩, ⟨300, true⟩, false) :=
  c9_interval_below_30_rejected ⟨300, true⟩ 10 (by decide)

/-- Claim C10: a filename matching the catalog glob whose timestamp token
is missing or unparsable yields a record with no timestamp and
night-session label `Unknown Date`; the deletion endpoint buckets every
such record under the day `Unknown Date`, and requesting that bucket
deletes each such record that is not the newest. -/
theorem c10_unknown_date_bucket (fn : String) (mtime : Int)
    (_hglob : matchesCatalogGlob fn)
    (hparse : filenameDatetime fn = none) :
    (mkImageRecord ⟨fn, mtime⟩).timestamp = none ∧
    (mkImageRecord ⟨fn, mtime⟩).nightSessionLabel = "Unknown Date" ∧
    imageDay (mkImageRecord ⟨fn, mtime⟩) = "Unknown Date" ∧
    ∀ (files : List FileEntry) (days : List String) (latest : ImageRecord),
      (get_all_images files).head? = some latest →
      mkImageRecord ⟨fn, mtime⟩ ∈ get_all_images files →
      fn ≠ latest.filename →
      "Unknown Date" ∈ days →
      fn ∈ (api_delete_images files days).deletedFilenames := by
  have hts : (mkImageRecord ⟨fn, mtime⟩).timestamp = none := by
    simp [mkImageRecord, extract_metadata_from_filename, hparse]
  have hlabel : (mkImageRecord ⟨fn, mtime⟩).nightSessionLabel = "Unknown Date" := by
    simp [mkImageRecord, extract_metadata_from_filename, hparse,
      get_night_session_for_image]
  have hday : imageDay (mkImageRecord ⟨fn, mtime⟩) = "Unknown Date" := by
    rw [imageDay, hts]
  refine ⟨hts, hlabel, hday, ?_⟩
  intro files days latest hhead hmem hne hdays
  have := mem_deletedFilenames_of files days latest (mkImageRecord ⟨fn, mtime⟩)
    hhead hmem (by simpa [mkImageRecord] using hne) (by rw [hday]; exact hdays)
  simpa [mkImageRecord] using this

/-- Witness for C10: `final_exp100ms.png` matches the glob, has no
timestamp token, lands in the `Unknown Date` bucket, and is deleted from a
catalog where it is not the newest record when that bucket is requested. -/
theorem c10_witness :
    (mkImageRecord ⟨"final_exp100ms.png", 50⟩).nightSessionLabel = "Unknown Date" ∧
    "final_exp100ms.png" ∈
      (api_delete_images
        [⟨"20241116_010000_exp100ms.png", 500⟩, ⟨"final_exp100ms.png", 50⟩]
        ["Unknown Date"]).deletedFilenames :=
  have h := c10_unknown_date_bucket "final_exp100ms.png" 50
    ⟨"final", "100", rfl⟩ (by decide)
  ⟨h.2.1,
   h.2.2.2 [⟨"20241116_010000_exp100ms.png", 500⟩, ⟨"final_exp100ms.png", 50⟩]
     ["Unknown Date"] (mkImageRecord ⟨"20241116_010000_exp100ms.png", 500⟩)
     (by decide) (by decide) (by decide) (by decide)⟩

end AllSkyHyde
